import Mathlib

/-
Verification development for the roxy motion-detection scripts.

The embedding covers the two main loop variants:
  * motion_gemini.py : sun-schedule driven day/night control, region-area
    (contour) motion strategy, cooldown-gated capture and Discord upload.
  * motion_discord.py : brightness driven exposure control, pixel-count
    motion strategy, cooldown-gated capture and Discord upload.

Images are grayscale pixel buffers, modelled as lists of rows of Nat
intensities.  The per-frame preprocessing (downscale, RGB to gray,
Gaussian blur) is a pure per-frame transform; the model takes the
processed grayscale frames as inputs and embeds the pipeline from the
frame-differencing step onward (absdiff, threshold, dilate, contours /
non-zero count), following the OpenCV semantics of the calls made by the
source: THRESH_BINARY is a strict comparison against the threshold,
dilate with a None kernel is a 3x3 maximum, findContours extracts the
outer boundary of each 8-connected component and contourArea is the
shoelace polygon area of that boundary polygon through pixel centers.

Clock readings (time.monotonic / time.time) are Int-valued inputs to the
loop step functions; the exact reading taken at each program point of an
iteration is a separate input field, in program order.
-/

abbrev Img := List (List Nat)

def getPx (img : Img) (p : Int × Int) : Nat :=
  if 0 ≤ p.1 ∧ 0 ≤ p.2 then (img.getD p.2.toNat []).getD p.1.toNat 0 else 0

def setPx (img : Img) (p : Int × Int) (v : Nat) : Img :=
  if 0 ≤ p.1 ∧ 0 ≤ p.2 then
    img.set p.2.toNat ((img.getD p.2.toNat []).set p.1.toNat v)
  else img

def mkImg (w h : Nat) (f : Nat → Nat → Nat) : Img :=
  (List.range h).map (fun y => (List.range w).map (fun x => f x y))

def blackImg (w h : Nat) : Img := mkImg w h (fun _ _ => 0)

/-- A w-by-h frame that is 255 inside the square with corner (x0, y0) and
the given side length, 0 elsewhere. -/
def squareImg (w h x0 y0 side : Nat) : Img :=
  mkImg w h (fun x y =>
    if x0 ≤ x ∧ x < x0 + side ∧ y0 ≤ y ∧ y < y0 + side then 255 else 0)

/-- cv2.absdiff on two equal-shaped grayscale images. -/
def absdiffImg (a b : Img) : Img :=
  List.zipWith (fun ra rb => List.zipWith (fun x y => max x y - min x y) ra rb) a b

/-- cv2.threshold with THRESH_BINARY and maxval 255: strictly above the
threshold maps to 255, everything else to 0. -/
def thresholdImg (t : Nat) (img : Img) : Img :=
  img.map (List.map (fun v => if t < v then 255 else 0))

def rowMax3Aux : Nat → List Nat → List Nat
  | _, [] => []
  | prev, [x] => [max prev x]
  | prev, x :: y :: rest => max (max prev x) y :: rowMax3Aux x (y :: rest)

/-- Pointwise maximum of each entry with its left and right neighbor
(missing neighbors at the row ends contribute nothing). -/
def rowMax3 (r : List Nat) : List Nat := rowMax3Aux 0 r

def vertMax3Aux : List Nat → Img → Img
  | _, [] => []
  | prev, [r] => [List.zipWith max prev r]
  | prev, r :: r2 :: rest =>
    List.zipWith max (List.zipWith max prev r) r2 :: vertMax3Aux r (r2 :: rest)

/-- cv2.dilate with a None kernel (3x3 rectangle), one iteration: each
pixel becomes the maximum over its 3x3 neighborhood, pixels outside the
image contributing nothing.  The 3x3 maximum is computed separably: a
horizontal maximum of three within each row, then a vertical maximum of
three across rows. -/
def dilateImg (img : Img) : Img :=
  vertMax3Aux (List.replicate (img.headD []).length 0) (img.map rowMax3)

/-- cv2.countNonZero. -/
def countNonZero (img : Img) : Nat :=
  (img.map (fun r => r.countP (fun v => v != 0))).sum

def offsets8 : List (Int × Int) :=
  [(-1,-1),(0,-1),(1,-1),(-1,0),(1,0),(-1,1),(0,1),(1,1)]

def nbrs8 (p : Int × Int) : List (Int × Int) :=
  offsets8.map (fun d => (p.1 + d.1, p.2 + d.2))

def imgSize (img : Img) : Nat := img.length * (img.headD []).length

def allCoords (img : Img) : List (Int × Int) :=
  ((List.range img.length).map (fun y =>
    (List.range (img.headD []).length).map (fun x => ((x : Int), (y : Int))))).flatten

/-- Flood fill of one 8-connected component: erases the component from the
image and returns the erased image together with the collected pixels. -/
def eraseComp : Nat → Img → List (Int × Int) → List (Int × Int) → Img × List (Int × Int)
  | 0, img, _, acc => (img, acc)
  | _ + 1, img, [], acc => (img, acc)
  | fuel + 1, img, q :: qs, acc =>
    if getPx img q ≠ 0 then
      eraseComp fuel (setPx img q 0) (nbrs8 q ++ qs) (q :: acc)
    else
      eraseComp fuel img qs acc

/-- Raster scan collecting, for each 8-connected component of the nonzero
pixels, its raster-first pixel together with its pixel count. -/
def compsAux : Img → List (Int × Int) → List ((Int × Int) × Nat)
  | _, [] => []
  | img, p :: ps =>
    if getPx img p ≠ 0 then
      let r := eraseComp (9 * imgSize img + 9) img [p] []
      (p, r.2.length) :: compsAux r.1 ps
    else compsAux img ps

def compsList (img : Img) : List ((Int × Int) × Nat) :=
  compsAux img (allCoords img)

/-- The eight neighbor directions in clockwise order (y grows downward),
starting from north; used by the boundary following of findContours. -/
def cwDirs : List (Int × Int) :=
  [(0,-1),(1,-1),(1,0),(1,1),(0,1),(-1,1),(-1,0),(-1,-1)]

def dirIdx (d : Int × Int) : Nat :=
  if d = (0,-1) then 0 else if d = (1,-1) then 1 else if d = (1,0) then 2
  else if d = (1,1) then 3 else if d = (0,1) then 4 else if d = (-1,1) then 5
  else if d = (-1,0) then 6 else 7

def padd (p d : Int × Int) : Int × Int := (p.1 + d.1, p.2 + d.2)

def psub (p q : Int × Int) : Int × Int := (p.1 - q.1, p.2 - q.2)

/-- Scan the 8 neighbors of p clockwise starting just after the backtrack
direction bIdx; return the first foreground neighbor together with the
direction (from that neighbor) of the background pixel examined just
before it. -/
def firstFg (img : Img) (p : Int × Int) (bIdx : Nat) : List Nat → Option ((Int × Int) × Nat)
  | [] => none
  | k :: ks =>
    let idx := (bIdx + k) % 8
    let n := padd p (cwDirs.getD idx (0, 0))
    if getPx img n ≠ 0 then
      let bg := padd p (cwDirs.getD ((bIdx + k - 1) % 8) (0, 0))
      some (n, dirIdx (psub bg n))
    else firstFg img p bIdx ks

/-- Moore boundary following with the Jacob stopping criterion: the walk
stops when it would re-enter the start pixel with the initial (west)
backtrack direction. -/
def traceLoop (img : Img) (s : Int × Int) : Nat → (Int × Int) → Nat → List (Int × Int) → List (Int × Int)
  | 0, _, _, acc => acc.reverse
  | fuel + 1, p, bIdx, acc =>
    match firstFg img p bIdx [1, 2, 3, 4, 5, 6, 7, 8] with
    | none => acc.reverse
    | some (n, nB) =>
      if n = s ∧ nB = 6 then acc.reverse
      else traceLoop img s fuel n nB (n :: acc)

/-- The outer boundary polygon of the 8-connected component whose
raster-first pixel is s (the start has background to its west and in the
whole row above the component, so the initial backtrack is west). -/
def traceContour (img : Img) (s : Int × Int) : List (Int × Int) :=
  s :: traceLoop img s (4 * imgSize img + 8) s 6 []

def shoelaceAux (first : Int × Int) : (Int × Int) → List (Int × Int) → Int
  | prev, [] => prev.1 * first.2 - first.1 * prev.2
  | prev, q :: qs => (prev.1 * q.2 - q.1 * prev.2) + shoelaceAux first q qs

/-- Twice the shoelace area of a closed polygon given by its vertices. -/
def shoelace2 : List (Int × Int) → Int
  | [] => 0
  | p :: ps => shoelaceAux p p ps

def rowStartsAux (y : Int) : Int → Nat → Nat → List Nat → List Nat → List (Int × Int)
  | _, _, _, _, [] => []
  | x, aW, rW, above, v :: vs =>
    let a0 := above.headD 0
    let a1 := (above.drop 1).headD 0
    let rest := rowStartsAux y (x + 1) a0 v (above.drop 1) vs
    if v ≠ 0 ∧ rW = 0 ∧ aW = 0 ∧ a0 = 0 ∧ a1 = 0 then (x, y) :: rest else rest

def contourStartsAux : Int → List Nat → Img → List (Int × Int)
  | _, _, [] => []
  | y, above, r :: rs => rowStartsAux y 0 0 0 above r ++ contourStartsAux (y + 1) r rs

/-- Candidate start pixels for the outer-border following of
findContours: foreground pixels whose west, northwest, north and
northeast neighbors are all background.  The raster-first pixel of every
8-connected component qualifies (its west neighbor and the whole adjacent
stretch of the row above are background), and the boundary walk started
there produces the external contour of that component, so every external
contour returned by findContours with RETR_EXTERNAL is traced from some
listed start. -/
def contourStarts (img : Img) : List (Int × Int) :=
  contourStartsAux 0 [] img

/-- Doubled cv2.contourArea of the outer contour traced from each contour
start pixel: findContours with RETR_EXTERNAL followed by contourArea (the
polygon area is an integer multiple of one half, so it is kept doubled).
A component with several candidate starts contributes the area of walks
from each of them; detection only asks whether some traced contour
reaches the area bound, so the external contour of every component is
accounted for exactly as in the source. -/
def contourAreas2 (img : Img) : List Nat :=
  (contourStarts img).map (fun p => (shoelace2 (traceContour img p)).natAbs)

/-- Region-area strategy of motion_gemini.py lines 204-215: absdiff,
THRESH_BINARY at the motion threshold, one 3x3 dilation, findContours,
and detection when some contour has contourArea at least minArea (area
comparisons are kept doubled to stay in integers). -/
def geminiRegionDetect (prev cur : Img) (t m : Nat) : Bool :=
  let binary := dilateImg (thresholdImg t (absdiffImg prev cur))
  (contourAreas2 binary).any (fun a => decide (2 * m ≤ a))

/-- Spec-side region-area predicate, following the spec wording for the
refinement comparison of claim C4: find connected components in the
thresholded binary map and signal detection when some component has
pixel area at least MIN_AREA. -/
def specRegionDetect (prev cur : Img) (t m : Nat) : Bool :=
  let binary := thresholdImg t (absdiffImg prev cur)
  (compsList binary).any (fun c => decide (m ≤ c.2))

/-- Pixel-count strategy of motion_discord.py lines 117-120: absdiff,
THRESH_BINARY at the motion threshold, countNonZero, detection when the
count is strictly greater than the pixel-change limit. -/
def discordPixelDetect (prev cur : Img) (t limit : Nat) : Bool :=
  countNonZero (thresholdImg t (absdiffImg prev cur)) > limit

/-- Spec-side pixel-count predicate, following the spec wording for the
refinement comparison of claim C5: detection when the count of on pixels
is at least PIXEL_CHANGE_LIMIT. -/
def specPixelDetect (prev cur : Img) (t limit : Nat) : Bool :=
  countNonZero (thresholdImg t (absdiffImg prev cur)) ≥ limit

/-- The day/night decision of motion_gemini.py lines 174-176: new_is_day
starts as True and, when both sunrise and sunset are known, becomes
sunrise <= now <= sunset (both boundaries inclusive).  Times are minutes
of day as Int. -/
def newIsDay (sunTimes : Option (Int × Int)) (now : Int) : Bool :=
  match sunTimes with
  | some (sr, ss) => decide (sr ≤ now ∧ now ≤ ss)
  | none => true

/-- Configuration constants of motion_gemini.py (env-overridable):
SUN_CHECK_INTERVAL, MOTION_THRESHOLD, MIN_AREA, CAPTURE_INTERVAL. -/
structure GeminiCfg where
  sunCheckInterval : Int
  motionThreshold : Nat
  minArea : Nat
  captureInterval : Int

/-- Mutable loop state of motion_detection_loop (plus the module globals
it updates): is_daytime, last_sun_check, the sunrise/sunset pair (set and
cleared together), prev_gray, last_capture_time. -/
structure GeminiState where
  isDaytime : Bool
  lastSunCheck : Int
  sunTimes : Option (Int × Int)
  prevGray : Option Img
  lastCaptureTime : Int

/-- External inputs consumed by one iteration of motion_detection_loop, in
program order: the monotonic reading at the top of the loop (line 166),
the outcome of sun.sun (none models the exception path), the wall-clock
time of day, the captured-and-processed grayscale frame (none models a
capture failure), the monotonic reading at the cooldown gate (line 217),
whether cv2.imwrite persisted without raising, and the monotonic reading
recorded into last_capture_time (line 233). -/
structure GeminiInput where
  nowMono : Int
  sunResult : Option (Int × Int)
  wallTime : Int
  frame : Option Img
  tGate : Int
  persistOk : Bool
  tRec : Int

/-- Observable events of one iteration. -/
structure GeminiEvents where
  reconfigured : Bool
  sunAttempted : Bool
  sunFailed : Bool
  comparedAgainst : Option Img
  motionDetected : Bool
  captureTriggered : Bool
  persisted : Bool

/-- Lines 166-183 of motion_gemini.py: the periodic sun check.  Returns
the updated state and the flags (Camera_setup reconfiguration happened,
refresh was attempted, refresh failed).  On failure the except branch
leaves sunrise/sunset and is_daytime untouched; last_sun_check is set to
the reading from the top of the iteration on every attempted refresh.
State field order: isDaytime, lastSunCheck, sunTimes, prevGray,
lastCaptureTime. -/
def geminiSunCheck (cfg : GeminiCfg) (s : GeminiState) (inp : GeminiInput) :
    GeminiState × Bool × Bool × Bool :=
  if cfg.sunCheckInterval < inp.nowMono - s.lastSunCheck then
    match inp.sunResult with
    | some (sr, ss) =>
      let nd := newIsDay (some (sr, ss)) inp.wallTime
      if nd != s.isDaytime then
        (⟨nd, inp.nowMono, some (sr, ss), s.prevGray, s.lastCaptureTime⟩, true, true, false)
      else
        (⟨s.isDaytime, inp.nowMono, some (sr, ss), s.prevGray, s.lastCaptureTime⟩, false, true, false)
    | none => (⟨s.isDaytime, inp.nowMono, s.sunTimes, s.prevGray, s.lastCaptureTime⟩, false, true, true)
  else (s, false, false, false)

/-- Lines 185-237 of motion_gemini.py: capture, bootstrap or difference
against prev_gray, cooldown-gated capture branch (the try around imwrite
and send_discord swallows a persist failure, and last_capture_time is
assigned after the try in either case), then the unconditional
prev_gray = gray.  Returns the post-iteration state with the comparison
baseline used (if any), the detection verdict, whether the capture branch
ran, and whether the persist succeeded. -/
def detectPhase (cfg : GeminiCfg) (s1 : GeminiState) (inp : GeminiInput) :
    GeminiState × Option Img × Bool × Bool × Bool :=
  match inp.frame with
  | none => (s1, none, false, false, false)
  | some gray =>
    match s1.prevGray with
    | none =>
      (⟨s1.isDaytime, s1.lastSunCheck, s1.sunTimes, some gray, s1.lastCaptureTime⟩,
       none, false, false, false)
    | some prev =>
      let motion := geminiRegionDetect prev gray cfg.motionThreshold cfg.minArea
      if motion && decide (cfg.captureInterval ≤ inp.tGate - s1.lastCaptureTime) then
        (⟨s1.isDaytime, s1.lastSunCheck, s1.sunTimes, some gray, inp.tRec⟩,
         some prev, motion, true, inp.persistOk)
      else
        (⟨s1.isDaytime, s1.lastSunCheck, s1.sunTimes, some gray, s1.lastCaptureTime⟩,
         some prev, motion, false, false)

/-- One full iteration of motion_detection_loop (lines 165-237). -/
def geminiStep (cfg : GeminiCfg) (s : GeminiState) (inp : GeminiInput) :
    GeminiState × GeminiEvents :=
  let r := geminiSunCheck cfg s inp
  let d := detectPhase cfg r.1 inp
  (d.1, ⟨r.2.1, r.2.2.1, r.2.2.2, d.2.1, d.2.2.1, d.2.2.2.1, d.2.2.2.2⟩)

/-- Hard-coded constants of motion_discord.py: MOTION_THRESHOLD,
PIXEL_CHANGE_LIMIT, COOLDOWN. -/
structure DiscordCfg where
  motionThreshold : Nat
  pixelChangeLimit : Nat
  cooldown : Int

/-- State variables of motion_discord.py lines 22-27: prev_frame,
last_motion_time, last_exposure_change, last_brightness, stable_frames. -/
structure DiscordState where
  prevFrame : Option Img
  lastMotionTime : Int
  lastExposureChange : Int
  lastBrightness : Option Int
  stableFrames : Nat

/-- Inputs of one iteration of the motion_discord.py main loop: the
time.time() reading inside adjust_exposure (line 37), the frame mean
brightness, the processed grayscale frame, the time.time() reading at the
cooldown gate (line 122) and the one recorded into last_motion_time
(line 127). -/
structure DiscordInput where
  tExp : Int
  brightness : Int
  frame : Img
  tGate : Int
  tRec : Int

/-- adjust_exposure of motion_discord.py lines 32-75: on the first sample
it only records the brightness; otherwise, when the brightness delta
exceeds 70 and more than 15 seconds passed since the last exposure
change, it reconfigures the camera and resets stable_frames, else it
increments stable_frames.  State field order: prevFrame, lastMotionTime,
lastExposureChange, lastBrightness, stableFrames. -/
def adjustExposure (s : DiscordState) (b tNow : Int) : DiscordState :=
  match s.lastBrightness with
  | none => ⟨s.prevFrame, s.lastMotionTime, s.lastExposureChange, some b, s.stableFrames⟩
  | some lb =>
    if 70 < (b - lb).natAbs ∧ 15 < tNow - s.lastExposureChange then
      ⟨s.prevFrame, s.lastMotionTime, tNow, some b, 0⟩
    else
      ⟨s.prevFrame, s.lastMotionTime, s.lastExposureChange, some b, s.stableFrames + 1⟩

/-- Lines 104-129 of motion_discord.py, after adjust_exposure: skip
everything while fewer than 5 stable frames, bootstrap prev_frame,
otherwise detect by pixel count and run the cooldown-gated capture
branch, recording time.time() into last_motion_time, then the
unconditional prev_frame = gray.  The second component is the capture
event (the recorded timestamp) when the branch ran. -/
def discordDetectPhase (cfg : DiscordCfg) (s1 : DiscordState) (i : DiscordInput) :
    DiscordState × Option Int :=
  if s1.stableFrames < 5 then (s1, none)
  else
    match s1.prevFrame with
    | none =>
      (⟨some i.frame, s1.lastMotionTime, s1.lastExposureChange, s1.lastBrightness, s1.stableFrames⟩, none)
    | some prev =>
      if discordPixelDetect prev i.frame cfg.motionThreshold cfg.pixelChangeLimit
          && decide (cfg.cooldown < i.tGate - s1.lastMotionTime) then
        (⟨some i.frame, i.tRec, s1.lastExposureChange, s1.lastBrightness, s1.stableFrames⟩, some i.tRec)
      else
        (⟨some i.frame, s1.lastMotionTime, s1.lastExposureChange, s1.lastBrightness, s1.stableFrames⟩, none)

/-- One iteration of the motion_discord.py main loop (lines 100-130):
adjust exposure first, then the stability gate, detection and capture. -/
def discordStep (cfg : DiscordCfg) (s : DiscordState) (i : DiscordInput) :
    DiscordState × Option Int :=
  discordDetectPhase cfg (adjustExposure s i.brightness i.tExp) i

/-- Run of the motion_discord.py loop over a list of iteration inputs,
collecting the recorded capture timestamps in order. -/
def discordRun (cfg : DiscordCfg) : DiscordState → List DiscordInput → DiscordState × List Int
  | s, [] => (s, [])
  | s, i :: is =>
    let r := discordStep cfg s i
    let rest := discordRun cfg r.1 is
    (rest.1, r.2.toList ++ rest.2)

/-- The clock readings of a run are nondecreasing in program order,
starting from t. -/
def clockMono : Int → List DiscordInput → Bool
  | _, [] => true
  | t, i :: is =>
    decide (t ≤ i.tExp) && decide (i.tExp ≤ i.tGate) && decide (i.tGate ≤ i.tRec)
      && clockMono i.tRec is

/-- Outcome of the HTTP POST to the webhook: a completed response with a
status code, or a raised transport error. -/
inductive HttpOutcome where
  | response (status : Nat)
  | transportError
deriving DecidableEq

/-- What a send operation did: whether a network request was made, the
timeout passed to requests.post (none when no timeout argument is given),
and whether the operation reported success. -/
structure SendReport where
  requested : Bool
  timeoutSeconds : Option Nat
  success : Bool

/-- send_discord of motion_gemini.py lines 119-131: an empty webhook skips
the upload entirely; otherwise requests.post runs with timeout=15 and a
status at or above 400, or a raised transport error, is caught and logged
as a failure; nothing propagates to the caller. -/
def send_discord (webhook : String) (outcome : HttpOutcome) : SendReport :=
  if webhook = "" then ⟨false, none, true⟩
  else
    match outcome with
    | .response st => ⟨true, some 15, decide (st < 400)⟩
    | .transportError => ⟨true, some 15, false⟩

/-- send_to_discord of motion_discord.py lines 85-97: requests.post runs
with no timeout argument; any completed response, whatever its status, is
followed by the success print, and only a raised transport error is
caught and reported as a failure; nothing propagates to the caller. -/
def send_to_discord (outcome : HttpOutcome) : SendReport :=
  match outcome with
  | .response _ => ⟨true, none, true⟩
  | .transportError => ⟨true, none, false⟩

-- Concrete instances used by the per-claim witnesses and counterexamples.

def gCfg : GeminiCfg := ⟨600, 40, 1, 5⟩

def c1base : Img := [[10]]

def c1state : GeminiState := ⟨true, 0, some (360, 1080), some c1base, 0⟩

/-- Sun refresh succeeds at wall time 1200 (20:00), past the 18:00 sunset,
so the mode flips to night and Camera_setup runs. -/
def c1input : GeminiInput := ⟨601, some (360, 1080), 1200, some [[200]], 601, true, 601⟩

def c2prev : Img := [[0, 0], [0, 0]]

def c2cur : Img := [[255, 255], [255, 255]]

def c2state : GeminiState := ⟨true, 0, none, some c2prev, 0⟩

/-- A detection that passes the cooldown gate but whose persist fails. -/
def c2input : GeminiInput := ⟨1, none, 0, some c2cur, 10, false, 11⟩

def c8state : GeminiState := ⟨true, 0, some (360, 1080), some c2prev, 0⟩

/-- The periodic sun refresh is due and fails. -/
def c8input : GeminiInput := ⟨601, none, 500, some c2cur, 10, true, 11⟩

def dCfg : DiscordCfg := ⟨35, 0, 10⟩

def dImg0 : Img := [[0]]

def dImg1 : Img := [[255]]

def dState : DiscordState := ⟨some dImg0, 0, 0, some 100, 5⟩

def dIn1 : DiscordInput := ⟨99, 100, dImg1, 100, 100⟩

def dIn2 : DiscordInput := ⟨102, 100, dImg0, 102, 102⟩

def dIn3 : DiscordInput := ⟨111, 100, dImg1, 111, 111⟩

/-- Three detections: captures requested at times 100, 102 (2 s after the
first, suppressed) and 111 (11 s after the first, accepted). -/
def dTrace : List DiscordInput := [dIn1, dIn2, dIn3]

def scAprev : Img := blackImg 42 42

def scAcur : Img := squareImg 42 42 1 1 40

def scBprev : Img := blackImg 22 22

def scBcur : Img := squareImg 22 22 1 1 20

def cx4prev : Img := blackImg 5 5

def cx4cur : Img := squareImg 5 5 1 1 3

-- Helper lemmas about the gemini loop step.

theorem gsc_prevGray (cfg : GeminiCfg) (s : GeminiState) (inp : GeminiInput) :
    (geminiSunCheck cfg s inp).1.prevGray = s.prevGray := by
  unfold geminiSunCheck
  split
  · split
    · dsimp only
      split <;> rfl
    · rfl
  · rfl

theorem gsc_fail (cfg : GeminiCfg) (s : GeminiState) (inp : GeminiInput)
    (hg : cfg.sunCheckInterval < inp.nowMono - s.lastSunCheck)
    (hn : inp.sunResult = none) :
    geminiSunCheck cfg s inp =
      (⟨s.isDaytime, inp.nowMono, s.sunTimes, s.prevGray, s.lastCaptureTime⟩, false, true, true) := by
  unfold geminiSunCheck
  rw [if_pos hg, hn]

theorem gsc_gate (cfg : GeminiCfg) (s : GeminiState) (inp : GeminiInput)
    (hg : cfg.sunCheckInterval < inp.nowMono - s.lastSunCheck) :
    (geminiSunCheck cfg s inp).1.lastSunCheck = inp.nowMono ∧
    (geminiSunCheck cfg s inp).2.2.1 = true := by
  unfold geminiSunCheck
  rw [if_pos hg]
  constructor
  · split
    · dsimp only
      split <;> rfl
    · rfl
  · split
    · dsimp only
      split <;> rfl
    · rfl

theorem gsc_nogate (cfg : GeminiCfg) (s : GeminiState) (inp : GeminiInput)
    (hg : ¬ cfg.sunCheckInterval < inp.nowMono - s.lastSunCheck) :
    geminiSunCheck cfg s inp = (s, false, false, false) := by
  unfold geminiSunCheck
  rw [if_neg hg]

theorem dp_preserve (cfg : GeminiCfg) (s1 : GeminiState) (inp : GeminiInput) :
    (detectPhase cfg s1 inp).1.sunTimes = s1.sunTimes ∧
    (detectPhase cfg s1 inp).1.isDaytime = s1.isDaytime ∧
    (detectPhase cfg s1 inp).1.lastSunCheck = s1.lastSunCheck := by
  unfold detectPhase
  split
  · exact ⟨rfl, rfl, rfl⟩
  · split
    · exact ⟨rfl, rfl, rfl⟩
    · dsimp only
      split <;> exact ⟨rfl, rfl, rfl⟩

theorem dp_boot (cfg : GeminiCfg) (s1 : GeminiState) (inp : GeminiInput) (g : Img)
    (hf : inp.frame = some g) (hp : s1.prevGray = none) :
    (detectPhase cfg s1 inp).2.1 = none ∧
    (detectPhase cfg s1 inp).2.2.2.1 = false ∧
    (detectPhase cfg s1 inp).1.prevGray = some g := by
  unfold detectPhase
  rw [hf]
  dsimp only
  rw [hp]
  exact ⟨rfl, rfl, rfl⟩

theorem dp_compared (cfg : GeminiCfg) (s1 : GeminiState) (inp : GeminiInput) (p g : Img)
    (hf : inp.frame = some g) (hp : s1.prevGray = some p) :
    (detectPhase cfg s1 inp).2.1 = some p ∧
    (detectPhase cfg s1 inp).1.prevGray = some g := by
  unfold detectPhase
  rw [hf]
  dsimp only
  rw [hp]
  dsimp only
  split <;> exact ⟨rfl, rfl⟩

theorem dp_trigger (cfg : GeminiCfg) (s1 : GeminiState) (inp : GeminiInput) :
    (detectPhase cfg s1 inp).2.2.2.1 = true →
    (detectPhase cfg s1 inp).1.lastCaptureTime = inp.tRec := by
  unfold detectPhase
  split
  · simp
  · split
    · simp
    · dsimp only
      split
      · intro _; rfl
      · simp

-- Helper lemmas about the discord loop step and run.

theorem adjustExposure_preserve (s : DiscordState) (b t : Int) :
    (adjustExposure s b t).lastMotionTime = s.lastMotionTime ∧
    (adjustExposure s b t).prevFrame = s.prevFrame := by
  unfold adjustExposure
  split
  · exact ⟨rfl, rfl⟩
  · split <;> exact ⟨rfl, rfl⟩

theorem ddp_cases (cfg : DiscordCfg) (s1 : DiscordState) (i : DiscordInput) :
    ((discordDetectPhase cfg s1 i).2 = none ∧
      (discordDetectPhase cfg s1 i).1.lastMotionTime = s1.lastMotionTime) ∨
    ((discordDetectPhase cfg s1 i).2 = some i.tRec ∧
      (discordDetectPhase cfg s1 i).1.lastMotionTime = i.tRec ∧
      cfg.cooldown < i.tGate - s1.lastMotionTime) := by
  unfold discordDetectPhase
  split
  · exact Or.inl ⟨rfl, rfl⟩
  · split
    · exact Or.inl ⟨rfl, rfl⟩
    · split
      · rename_i hcond
        rw [Bool.and_eq_true, decide_eq_true_eq] at hcond
        exact Or.inr ⟨rfl, rfl, hcond.2⟩
      · exact Or.inl ⟨rfl, rfl⟩

theorem discordStep_cases (cfg : DiscordCfg) (s : DiscordState) (i : DiscordInput) :
    ((discordStep cfg s i).2 = none ∧
      (discordStep cfg s i).1.lastMotionTime = s.lastMotionTime) ∨
    ((discordStep cfg s i).2 = some i.tRec ∧
      (discordStep cfg s i).1.lastMotionTime = i.tRec ∧
      cfg.cooldown < i.tGate - s.lastMotionTime) := by
  have ha := (adjustExposure_preserve s i.brightness i.tExp).1
  rcases ddp_cases cfg (adjustExposure s i.brightness i.tExp) i with ⟨h1, h2⟩ | ⟨h1, h2, h3⟩
  · exact Or.inl ⟨h1, by rw [discordStep, h2, ha]⟩
  · exact Or.inr ⟨h1, h2, by rw [← ha]; exact h3⟩

theorem clockMono_weaken {t u : Int} {l : List DiscordInput} (h : t ≤ u)
    (hm : clockMono u l = true) : clockMono t l = true := by
  cases l with
  | nil => rfl
  | cons i is =>
    simp only [clockMono, Bool.and_eq_true, decide_eq_true_eq] at hm ⊢
    exact ⟨⟨⟨le_trans h hm.1.1.1, hm.1.1.2⟩, hm.1.2⟩, hm.2⟩

theorem discordRun_bounds (cfg : DiscordCfg) :
    ∀ (l : List DiscordInput) (s : DiscordState),
      clockMono s.lastMotionTime l = true →
      (∀ e ∈ (discordRun cfg s l).2, s.lastMotionTime + cfg.cooldown < e) ∧
      s.lastMotionTime ≤ (discordRun cfg s l).1.lastMotionTime ∧
      List.Pairwise (fun a b => a + cfg.cooldown < b) (discordRun cfg s l).2 := by
  intro l
  induction l with
  | nil =>
    intro s _
    refine ⟨?_, le_refl _, List.Pairwise.nil⟩
    intro e he
    simp [discordRun] at he
  | cons i is ih =>
    intro s h
    simp only [clockMono, Bool.and_eq_true, decide_eq_true_eq] at h
    obtain ⟨⟨⟨h1, h2⟩, h3⟩, h4⟩ := h
    have hrun : discordRun cfg s (i :: is) =
        ((discordRun cfg (discordStep cfg s i).1 is).1,
          (discordStep cfg s i).2.toList ++ (discordRun cfg (discordStep cfg s i).1 is).2) := rfl
    rcases discordStep_cases cfg s i with ⟨hev, hlm⟩ | ⟨hev, hlm, hgap⟩
    · have hmono : clockMono (discordStep cfg s i).1.lastMotionTime is = true := by
        rw [hlm]
        exact clockMono_weaken (le_trans h1 (le_trans h2 h3)) h4
      have hih := ih (discordStep cfg s i).1 hmono
      rw [hrun, hev]
      simp only [Option.toList_none, List.nil_append]
      refine ⟨?_, ?_, hih.2.2⟩
      · intro e he
        have h5 := hih.1 e he
        omega
      · have h5 := hih.2.1
        omega
    · have hmono : clockMono (discordStep cfg s i).1.lastMotionTime is = true := by
        rw [hlm]
        exact h4
      have hih := ih (discordStep cfg s i).1 hmono
      rw [hrun, hev]
      simp only [Option.toList_some, List.singleton_append]
      refine ⟨?_, ?_, ?_⟩
      · intro e he
        rcases List.mem_cons.mp he with rfl | hmem
        · omega
        · have h5 := hih.1 e hmem
          omega
      · have h5 := hih.2.1
        omega
      · refine List.pairwise_cons.mpr ⟨?_, hih.2.2⟩
        intro e hmem
        have h5 := hih.1 e hmem
        omega

-- Claim theorems.

/-- Claim C1, counterexample: a single iteration of motion_detection_loop
in which the sun refresh flips the day/night mode (Camera_setup runs,
reconfiguring the exposure) still differences the frame captured under
the new settings against the baseline frame from before the transition,
because prev_gray is never cleared. -/
theorem C1_counterexample :
    (geminiStep gCfg c1state c1input).2.reconfigured = true ∧
    (geminiStep gCfg c1state c1input).2.comparedAgainst = some c1base ∧
    c1state.prevGray = some c1base := by decide

/-- Claim C1 as amended: exposure transitions do not invalidate the
motion baseline; on any iteration that reconfigures the camera and still
obtains a frame, the comparison of that same iteration uses the baseline
frame held from before the transition. -/
theorem C1_exposure_transition_keeps_baseline :
    ∀ (cfg : GeminiCfg) (s : GeminiState) (inp : GeminiInput) (p g : Img),
      (geminiStep cfg s inp).2.reconfigured = true →
      s.prevGray = some p → inp.frame = some g →
      (geminiStep cfg s inp).2.comparedAgainst = some p := by
  intro cfg s inp p g _hrec hp hf
  show (detectPhase cfg (geminiSunCheck cfg s inp).1 inp).2.1 = some p
  exact (dp_compared cfg (geminiSunCheck cfg s inp).1 inp p g hf
    (by rw [gsc_prevGray]; exact hp)).1

/-- Claim C1 witness: the amended statement at the concrete transition
iteration. -/
theorem C1_witness :
    (geminiStep gCfg c1state c1input).2.comparedAgainst = some c1base :=
  C1_exposure_transition_keeps_baseline gCfg c1state c1input c1base [[200]]
    (by decide) (by decide) (by decide)

/-- Claim C2, counterexample: an iteration whose capture branch runs with
a failing persist (the exception is caught by the try around imwrite and
send_discord) still updates last_capture_time, because the assignment
sits after the except handler. -/
theorem C2_counterexample :
    (geminiStep gCfg c2state c2input).2.captureTriggered = true ∧
    (geminiStep gCfg c2state c2input).2.persisted = false ∧
    (geminiStep gCfg c2state c2input).1.lastCaptureTime = 11 ∧
    c2state.lastCaptureTime = 0 := by decide

/-- Claim C2 as amended: the last-capture timestamp is updated to the
post-attempt monotonic reading after every capture attempt that passes
the cooldown gate, whether or not the persist succeeded. -/
theorem C2_timestamp_updated_regardless_of_persist :
    ∀ (cfg : GeminiCfg) (s : GeminiState) (inp : GeminiInput),
      (geminiStep cfg s inp).2.captureTriggered = true →
      (geminiStep cfg s inp).1.lastCaptureTime = inp.tRec := by
  intro cfg s inp h
  exact dp_trigger cfg (geminiSunCheck cfg s inp).1 inp h

/-- Claim C2 witness: the amended statement at the concrete
failing-persist iteration. -/
theorem C2_witness :
    (geminiStep gCfg c2state c2input).1.lastCaptureTime = 11 :=
  C2_timestamp_updated_regardless_of_persist gCfg c2state c2input (by decide)

/-- Claim C3: along any run of the motion_discord loop whose clock
readings are nondecreasing in program order, the recorded capture
timestamps are pairwise at least COOLDOWN apart (the gate is strict, so
consecutive captures are in fact more than COOLDOWN apart). -/
theorem C3_no_two_captures_within_cooldown :
    ∀ (cfg : DiscordCfg) (s : DiscordState) (l : List DiscordInput),
      clockMono s.lastMotionTime l = true →
      List.Pairwise (fun a b => cfg.cooldown ≤ b - a) (discordRun cfg s l).2 := by
  intro cfg s l hm
  refine List.Pairwise.imp ?_ (discordRun_bounds cfg l s hm).2.2
  intro a b hab
  omega

/-- Claim C3 witness (scenario C): with COOLDOWN = 10, captures requested
at times 100, 102 and 111 record exactly the timestamps 100 and 111: the
request 2 seconds after the first capture is suppressed and the one 11
seconds after is accepted, and the recorded timestamps are at least 10
apart. -/
theorem C3_witness :
    (discordRun dCfg dState dTrace).2 = [100, 111] ∧
    List.Pairwise (fun a b => dCfg.cooldown ≤ b - a) (discordRun dCfg dState dTrace).2 :=
  ⟨by decide, C3_no_two_captures_within_cooldown dCfg dState dTrace (by decide)⟩

/-- Claim C4, counterexample: a frame pair whose thresholded difference
map is a single 3x3 component of 9 pixels, with MIN_AREA 16, is a
detection for the code (after the 3x3 dilation the traced contour has
doubled polygon area 32, that is contourArea 16), although no connected
component of the thresholded map has pixel area at least 16 as the claim
requires. -/
theorem C4_counterexample :
    specRegionDetect cx4prev cx4cur 25 16 = false ∧
    geminiRegionDetect cx4prev cx4cur 25 16 = true := by decide

set_option maxRecDepth 100000 in
/-- Claim C4 as amended: under the region-area strategy motion is
signalled iff some outer contour of the dilated thresholded difference
map has cv2 contourArea (polygon area through pixel centers, kept
doubled here) at least MIN_AREA — the criterion is not the pixel count
of a component; scenarios A and B hold as stated: with threshold 25 and
min_area 1000, a pair differing only in a 40x40 bright square is a
detection and the 20x20 variant is not. -/
theorem C4_region_area_scenarios :
    (∀ (prev cur : Img) (t m : Nat),
      geminiRegionDetect prev cur t m = true ↔
        ∃ a ∈ contourAreas2 (dilateImg (thresholdImg t (absdiffImg prev cur))), 2 * m ≤ a) ∧
    geminiRegionDetect scAprev scAcur 25 1000 = true ∧
    geminiRegionDetect scBprev scBcur 25 1000 = false := by
  refine ⟨?_, by decide, by decide⟩
  intro prev cur t m
  simp [geminiRegionDetect, List.any_eq_true]

/-- Claim C5, counterexample: a frame pair with exactly
PIXEL_CHANGE_LIMIT changed pixels satisfies the claim criterion (count at
least the limit) but is not a detection for the code, whose comparison is
strict. -/
theorem C5_counterexample :
    specPixelDetect [[0, 0]] [[255, 255]] 35 2 = true ∧
    discordPixelDetect [[0, 0]] [[255, 255]] 35 2 = false := by decide

/-- Claim C5 as amended: under the pixel-count strategy motion is
signalled iff the count of on pixels in the thresholded binary difference
map is strictly greater than PIXEL_CHANGE_LIMIT (at least the limit plus
one). -/
theorem C5_pixel_count_strictly_above_limit :
    ∀ (prev cur : Img) (t limit : Nat),
      discordPixelDetect prev cur t limit = true ↔
        countNonZero (thresholdImg t (absdiffImg prev cur)) ≥ limit + 1 := by
  intro prev cur t limit
  simp only [discordPixelDetect, decide_eq_true_eq, ge_iff_le]
  omega

/-- Claim C6: the schedule driven day/night decision is a pure function
of the sun window and the time of day; with a known window it is Day iff
sunrise ≤ now ≤ sunset with both boundaries inclusive, so one minute
after sunrise resolves to Day (whenever sunrise + 1 is still inside the
window) and one minute after sunset resolves to Night. -/
theorem C6_is_daytime_inclusive_bounds :
    ∀ sr ss now : Int,
      (newIsDay (some (sr, ss)) now = true ↔ sr ≤ now ∧ now ≤ ss) ∧
      (sr + 1 ≤ ss → newIsDay (some (sr, ss)) (sr + 1) = true) ∧
      newIsDay (some (sr, ss)) (ss + 1) = false := by
  intro sr ss now
  refine ⟨?_, ?_, ?_⟩
  · simp [newIsDay]
  · intro h
    simp [newIsDay]
    omega
  · simp [newIsDay]

/-- Claim C6 witness (scenario D) at sunrise 360 and sunset 1080
(minutes): 361 resolves to Day and 1081 to Night. -/
theorem C6_witness :
    (newIsDay (some (360, 1080)) 500 = true ↔ (360 : Int) ≤ 500 ∧ (500 : Int) ≤ 1080) ∧
    newIsDay (some (360, 1080)) 361 = true ∧
    newIsDay (some (360, 1080)) 1081 = false :=
  ⟨(C6_is_daytime_inclusive_bounds 360 1080 500).1,
   (C6_is_daytime_inclusive_bounds 360 1080 500).2.1 (by decide),
   (C6_is_daytime_inclusive_bounds 360 1080 500).2.2⟩

/-- Claim C7: on every iteration that obtains a frame, an absent baseline
means no comparison and no capture this cycle with the frame becoming the
new baseline, and a present baseline is exactly what the comparison
differences against, with the current frame unconditionally replacing it
afterwards — frame-to-frame differencing against the immediately
preceding processed frame. -/
theorem C7_frame_to_frame_differencing :
    ∀ (cfg : GeminiCfg) (s : GeminiState) (inp : GeminiInput) (g : Img),
      inp.frame = some g →
      (s.prevGray = none →
        (geminiStep cfg s inp).2.comparedAgainst = none ∧
        (geminiStep cfg s inp).2.captureTriggered = false ∧
        (geminiStep cfg s inp).1.prevGray = some g) ∧
      (∀ p : Img, s.prevGray = some p →
        (geminiStep cfg s inp).2.comparedAgainst = some p ∧
        (geminiStep cfg s inp).1.prevGray = some g) := by
  intro cfg s inp g hf
  constructor
  · intro hp
    have h := dp_boot cfg (geminiSunCheck cfg s inp).1 inp g hf
      (by rw [gsc_prevGray]; exact hp)
    exact ⟨h.1, h.2.1, h.2.2⟩
  · intro p hp
    have h := dp_compared cfg (geminiSunCheck cfg s inp).1 inp p g hf
      (by rw [gsc_prevGray]; exact hp)
    exact ⟨h.1, h.2⟩

/-- Claim C7 witness at a concrete iteration with a present baseline. -/
theorem C7_witness :
    (geminiStep gCfg c2state c2input).2.comparedAgainst = some c2prev ∧
    (geminiStep gCfg c2state c2input).1.prevGray = some c2cur :=
  (C7_frame_to_frame_differencing gCfg c2state c2input c2cur (by decide)).2
    c2prev (by decide)

/-- Claim C8: when the periodic sun refresh is due and the recomputation
fails, the previous sun window is retained entirely unchanged (neither
sunrise nor sunset is touched), the day/night mode is unchanged and no
reconfiguration happens, only the failure warning is signalled, and the
iteration continues normally — a frame with a present baseline is still
compared against that baseline. -/
theorem C8_sun_refresh_failure_fail_open :
    ∀ (cfg : GeminiCfg) (s : GeminiState) (inp : GeminiInput),
      cfg.sunCheckInterval < inp.nowMono - s.lastSunCheck →
      inp.sunResult = none →
      (geminiStep cfg s inp).1.sunTimes = s.sunTimes ∧
      (geminiStep cfg s inp).1.isDaytime = s.isDaytime ∧
      (geminiStep cfg s inp).2.sunAttempted = true ∧
      (geminiStep cfg s inp).2.sunFailed = true ∧
      (geminiStep cfg s inp).2.reconfigured = false ∧
      (∀ (g p : Img), inp.frame = some g → s.prevGray = some p →
        (geminiStep cfg s inp).2.comparedAgainst = some p) := by
  intro cfg s inp hg hn
  have hs := gsc_fail cfg s inp hg hn
  refine ⟨?_, ?_, ?_, ?_, ?_, ?_⟩
  · show (detectPhase cfg (geminiSunCheck cfg s inp).1 inp).1.sunTimes = s.sunTimes
    rw [(dp_preserve cfg (geminiSunCheck cfg s inp).1 inp).1, hs]
  · show (detectPhase cfg (geminiSunCheck cfg s inp).1 inp).1.isDaytime = s.isDaytime
    rw [(dp_preserve cfg (geminiSunCheck cfg s inp).1 inp).2.1, hs]
  · show (geminiSunCheck cfg s inp).2.2.1 = true
    rw [hs]
  · show (geminiSunCheck cfg s inp).2.2.2 = true
    rw [hs]
  · show (geminiSunCheck cfg s inp).2.1 = false
    rw [hs]
  · intro g p hfr hpv
    show (detectPhase cfg (geminiSunCheck cfg s inp).1 inp).2.1 = some p
    exact (dp_compared cfg (geminiSunCheck cfg s inp).1 inp p g hfr
      (by rw [gsc_prevGray]; exact hpv)).1

/-- Claim C8 witness at a concrete failing refresh. -/
theorem C8_witness :
    (geminiStep gCfg c8state c8input).1.sunTimes = some (360, 1080) ∧
    (geminiStep gCfg c8state c8input).2.sunFailed = true ∧
    (geminiStep gCfg c8state c8input).2.comparedAgainst = some c2prev := by
  have h := C8_sun_refresh_failure_fail_open gCfg c8state c8input (by decide) (by decide)
  exact ⟨h.1, h.2.2.2.1, h.2.2.2.2.2 c2cur c2prev (by decide) (by decide)⟩

/-- Claim C9, counterexample: the motion_discord send operation passes no
timeout to requests.post and reports success for a completed HTTP 500
response, where the claim requires a bounded timeout and a failure
result. -/
theorem C9_counterexample :
    (send_to_discord (HttpOutcome.response 500)).success = true ∧
    (send_to_discord (HttpOutcome.response 500)).timeoutSeconds = none := by decide

/-- Claim C9 as amended: the motion_gemini send_discord applies a 15
second timeout on every request, reports failure exactly on an HTTP
status of 400 or above or a transport error without ever raising into the
loop, and with an empty webhook it is a no-op success that performs no
request; the motion_discord variant only guarantees the no-raise part. -/
theorem C9_send_discord_contract :
    ∀ (w : String) (o : HttpOutcome), w ≠ "" →
      ((send_discord w o).requested = true ∧
       (send_discord w o).timeoutSeconds = some 15 ∧
       ((send_discord w o).success = false ↔
         (∃ st, o = HttpOutcome.response st ∧ 400 ≤ st) ∨ o = HttpOutcome.transportError)) ∧
      ((send_discord "" o).requested = false ∧
       (send_discord "" o).timeoutSeconds = none ∧
       (send_discord "" o).success = true) := by
  intro w o hw
  constructor
  · cases o with
    | response st =>
      refine ⟨?_, ?_, ?_⟩ <;> simp [send_discord, hw]
    | transportError =>
      refine ⟨?_, ?_, ?_⟩ <;> simp [send_discord, hw]
  · cases o <;> simp [send_discord]

/-- Claim C9 witness (scenario E for the gemini variant): an HTTP 500
response yields a failure result under the 15 second timeout. -/
theorem C9_witness :
    (send_discord "hook" (HttpOutcome.response 500)).success = false ∧
    (send_discord "hook" (HttpOutcome.response 500)).timeoutSeconds = some 15 := by
  have h := C9_send_discord_contract "hook" (HttpOutcome.response 500) (by decide)
  exact ⟨h.1.2.2.mpr (Or.inl ⟨500, rfl, by omega⟩), h.1.2.1⟩

/-- Claim C10: last_sun_check is advanced to the current monotonic
reading on every iteration whose refresh gate fires, whether the
recomputation succeeded or failed, and is left unchanged (with no refresh
attempt) otherwise — so after a failed refresh no retry happens until a
full SUN_CHECK_INTERVAL has elapsed again. -/
theorem C10_refresh_timestamp_always_advances :
    ∀ (cfg : GeminiCfg) (s : GeminiState) (inp : GeminiInput),
      (cfg.sunCheckInterval < inp.nowMono - s.lastSunCheck →
        (geminiStep cfg s inp).1.lastSunCheck = inp.nowMono ∧
        (geminiStep cfg s inp).2.sunAttempted = true) ∧
      (¬ cfg.sunCheckInterval < inp.nowMono - s.lastSunCheck →
        (geminiStep cfg s inp).1.lastSunCheck = s.lastSunCheck ∧
        (geminiStep cfg s inp).2.sunAttempted = false) := by
  intro cfg s inp
  constructor
  · intro hg
    have h := gsc_gate cfg s inp hg
    constructor
    · show (detectPhase cfg (geminiSunCheck cfg s inp).1 inp).1.lastSunCheck = inp.nowMono
      rw [(dp_preserve cfg (geminiSunCheck cfg s inp).1 inp).2.2]
      exact h.1
    · exact h.2
  · intro hg
    have h := gsc_nogate cfg s inp hg
    constructor
    · show (detectPhase cfg (geminiSunCheck cfg s inp).1 inp).1.lastSunCheck = s.lastSunCheck
      rw [(dp_preserve cfg (geminiSunCheck cfg s inp).1 inp).2.2, h]
    · show (geminiSunCheck cfg s inp).2.2.1 = false
      rw [h]

/-- Claim C10 witness: a fired gate with failing refresh advances
last_sun_check to the current reading; an unfired gate leaves it and
makes no attempt. -/
theorem C10_witness :
    ((geminiStep gCfg c8state c8input).1.lastSunCheck = 601 ∧
     (geminiStep gCfg c8state c8input).2.sunAttempted = true) ∧
    ((geminiStep gCfg c2state c2input).1.lastSunCheck = 0 ∧
     (geminiStep gCfg c2state c2input).2.sunAttempted = false) :=
  ⟨(C10_refresh_timestamp_always_advances gCfg c8state c8input).1 (by decide),
   (C10_refresh_timestamp_always_advances gCfg c2state c2input).2 (by decide)⟩
